import Mathlib

/-!
# Paid-bundle converter: `main.go`

A shallow embedding of `src/main.go`:

* Go slices are Lean lists (element sequence only; capacity and nil-ness of a
  slice are not observable through the properties below).
* A Go `map[string]V` is a list of key/value entries read through
  `GoMap.lookup` (the first entry of a key is its value) and written through
  `GoMap.assign`; a possibly-nil map is an `Option` of one. Maps are values:
  every decoded object owns its `Data` map.
* The package-level variable `originalTemplate` is threaded explicitly.
* The YAML codec and the file system are parameters (`Externals`).
-/

namespace PaidBundles

/-! ## Go maps -/

/-- Entries of a non-nil Go `map[string]V`. -/
abbrev GoMap (V : Type) := List (String × V)

namespace GoMap

/-- The comma-ok lookup `v, ok := m[k]`. -/
def lookup {V : Type} : GoMap V → String → Option V
  | [], _ => none
  | (k', v) :: rest, k => if k' = k then some v else lookup rest k

/-- The plain index expression `m[k]`, giving the zero value for a missing key. -/
def index {V : Type} (zero : V) (m : GoMap V) (k : String) : V :=
  (lookup m k).getD zero

/-- The assignment `m[k] = v` on a non-nil map: overwrite the entry of `k`, or
add one when `k` has none. -/
def assign {V : Type} : GoMap V → String → V → GoMap V
  | [], k, v => [(k, v)]
  | (k', v') :: rest, k, v =>
    if k' = k then (k, v) :: rest else (k', v') :: assign rest k v

/-- The key set of a map, as a list. -/
def keys {V : Type} (m : GoMap V) : List String := m.map Prod.fst

end GoMap

/-! ## Data model (`main.go` lines 12-34) -/

/-- The Go struct `Bundle`. -/
structure Bundle where
  Name : String
  UseValidAccNum : Bool
  UseValidOrgId : Bool
  UseIsInternal : Bool
  Skus : List String
  PaidSkus : List String
  deriving DecidableEq, Repr

/-- The zero value of `Bundle`, the content of a fresh `make([]Bundle, n)`. -/
def Bundle.zero : Bundle :=
  { Name := "", UseValidAccNum := false, UseValidOrgId := false,
    UseIsInternal := false, Skus := [], PaidSkus := [] }

/-! ## `removePaidSkusFromSkus` (`main.go` lines 62-93) -/

/-- Lines 68-71: `paidSkusMap := make(map[string]bool)` followed by the loop
`paidSkusMap[paidSku] = true` over `bundle.PaidSkus`. -/
def buildPaidSkusMap (paidSkus : List String) : GoMap Bool :=
  paidSkus.foldl (fun m paidSku => GoMap.assign m paidSku true) []

/-- Lines 74-79: `filteredSkus := make([]string, 0, len(bundle.Skus))` followed
by the loop appending every `sku` with `!paidSkusMap[sku]`. -/
def filterSkus (paidSkusMap : GoMap Bool) (skus : List String) : List String :=
  skus.foldl
    (fun filteredSkus sku =>
      if !(GoMap.index false paidSkusMap sku) then filteredSkus ++ [sku] else filteredSkus)
    []

/-- Lines 67-89: the body of the outer loop, the value stored at `newBundles[i]`. -/
def loopBody (bundle : Bundle) : Bundle :=
  let paidSkusMap := buildPaidSkusMap bundle.PaidSkus
  let filteredSkus := filterSkus paidSkusMap bundle.Skus
  { Name := bundle.Name
    UseValidAccNum := bundle.UseValidAccNum
    UseValidOrgId := bundle.UseValidOrgId
    UseIsInternal := bundle.UseIsInternal
    Skus := filteredSkus
    PaidSkus := bundle.PaidSkus }

/-- The function `removePaidSkusFromSkus`: allocate `len(bundles)` zero bundles,
then for each `i, bundle := range bundles` store the loop body at index `i`
(always in range, since `newBundles` has the length of `bundles`). -/
def removePaidSkusFromSkus (bundles : List Bundle) : List Bundle :=
  let newBundles := List.replicate bundles.length Bundle.zero
  bundles.enum.foldl (fun acc ib => acc.set ib.1 (loopBody ib.2)) newBundles

/-! ## The document envelope (`main.go` lines 21-34) -/

/-- A possibly-nil Go map: `none` is the nil map. -/
abbrev NilableMap (V : Type) := Option (GoMap V)

/-- Reading `v, ok := m[k]` from a possibly-nil map: a nil map has no keys. -/
def NilableMap.lookup {V : Type} : NilableMap V → String → Option V
  | none, _ => none
  | some m, k => GoMap.lookup m k

/-- The Go struct `ConfigMap`; the type `M` stands for `map[string]interface{}`,
which the program never inspects. -/
structure ConfigMap (M : Type) where
  ApiVersion : String
  Kind : String
  Metadata : M
  Data : NilableMap String

/-- The Go struct `Template`. -/
structure Template (M : Type) where
  Kind : String
  ApiVersion : String
  Objects : List (ConfigMap M)

/-- The zero value of `Template`, the initial content of `originalTemplate`. -/
def Template.zero {M : Type} : Template M :=
  { Kind := "", ApiVersion := "", Objects := [] }

/-- The errors `readBundlesFromConfigMap` returns, one per `fmt.Errorf` site. -/
inductive ReadError where
  | readFile (filepath err : String)
  | parseTemplate (err : String)
  | kindNotTemplate (got : String)
  | noObjects
  | firstNotConfigMap (got : String)
  | noBundlesKey
  | parseBundles (err : String)
  deriving DecidableEq, Repr

/-- The errors raised by the block "Validate template structure" up to the
`bundles.yml` lookup (lines 109-128). -/
def ReadError.isValidation : ReadError → Bool
  | .kindNotTemplate _ => true
  | .noObjects => true
  | .firstNotConfigMap _ => true
  | .noBundlesKey => true
  | _ => false

/-- The errors `writeBundlesToConfigMap` returns, one per `fmt.Errorf` site. -/
inductive WriteError where
  | marshalBundles (err : String)
  | marshalTemplate (err : String)
  | writeFile (filepath err : String)
  deriving DecidableEq, Repr

/-- Run-time panics of the Go statements modelled here. -/
inductive Panic where
  | indexOutOfRange
  | assignToNilMap
  deriving DecidableEq, Repr

/-- The collaborators outside the repository: `os.ReadFile`, `os.WriteFile` and
the `yaml.v3` codec. `unmarshalTemplate data t` is `yaml.Unmarshal(data, &t)`:
it gives the new content of the target and the error, if any. -/
structure Externals (M : Type) where
  readFile : String → Except String String
  unmarshalTemplate : String → Template M → Template M × Option String
  unmarshalBundles : String → Except String (List Bundle)
  marshalBundles : List Bundle → Except String String
  marshalTemplate : Template M → Except String String
  writeFile : String → String → Option String

/-! ## `readBundlesFromConfigMap` (`main.go` lines 95-138) -/

/-- Lines 109-137: validation of the parsed envelope and decoding of the text
stored under `bundles.yml`. -/
def validateAndDecode {M : Type} (ext : Externals M) (originalTemplate : Template M) :
    Except ReadError (List Bundle) :=
  if originalTemplate.Kind ≠ "Template" then
    .error (.kindNotTemplate originalTemplate.Kind)
  else
    match originalTemplate.Objects with
    | [] => .error .noObjects
    | configMap :: _ =>
      if configMap.Kind ≠ "ConfigMap" then
        .error (.firstNotConfigMap configMap.Kind)
      else
        match NilableMap.lookup configMap.Data "bundles.yml" with
        | none => .error .noBundlesKey
        | some bundlesYaml =>
          match ext.unmarshalBundles bundlesYaml with
          | .error err => .error (.parseBundles err)
          | .ok bundles => .ok bundles

/-- The function `readBundlesFromConfigMap`, with `originalTemplate` passed in
and returned: the result and the content of `originalTemplate` afterwards. -/
def readBundlesFromConfigMap {M : Type} (ext : Externals M) (filepath : String)
    (originalTemplate : Template M) : Except ReadError (List Bundle) × Template M :=
  match ext.readFile filepath with
  | .error err => (.error (.readFile filepath err), originalTemplate)
  | .ok data =>
    match ext.unmarshalTemplate data originalTemplate with
    | (parsed, some err) => (.error (.parseTemplate err), parsed)
    | (parsed, none) => (validateAndDecode ext parsed, parsed)

/-! ## `writeBundlesToConfigMap` (`main.go` lines 36-60) -/

/-- Line 45: `originalTemplate.Objects[0].Data["bundles.yml"] = text`. -/
def updateBundlesYml {M : Type} (originalTemplate : Template M) (text : String) :
    Except Panic (Template M) :=
  match originalTemplate.Objects with
  | [] => .error .indexOutOfRange
  | configMap :: rest =>
    match configMap.Data with
    | none => .error .assignToNilMap
    | some data =>
      .ok { originalTemplate with
            Objects :=
              { configMap with Data := some (GoMap.assign data "bundles.yml" text) } :: rest }

/-- The function `writeBundlesToConfigMap`, with `originalTemplate` passed in
and returned: a panic, or the returned error (if any) and the content of
`originalTemplate` afterwards. -/
def writeBundlesToConfigMap {M : Type} (ext : Externals M) (bundles : List Bundle)
    (outputFilepath : String) (originalTemplate : Template M) :
    Except Panic (Option WriteError × Template M) :=
  match ext.marshalBundles bundles with
  | .error err => .ok (some (.marshalBundles err), originalTemplate)
  | .ok bundlesYaml =>
    match updateBundlesYml originalTemplate bundlesYaml with
    | .error p => .error p
    | .ok updated =>
      match ext.marshalTemplate updated with
      | .error err => .ok (some (.marshalTemplate err), updated)
      | .ok outputData =>
        match ext.writeFile outputFilepath outputData with
        | some err => .ok (some (.writeFile outputFilepath err), updated)
        | none => .ok (none, updated)

/-! ## Fixtures used to instantiate the theorems -/

/-- The bundle of the test case "preserves boolean fields". -/
def sampleBundle : Bundle :=
  { Name := "test-bundle", UseValidAccNum := true, UseValidOrgId := true,
    UseIsInternal := false, Skus := ["sku1", "sku2", "sku3"], PaidSkus := ["sku2"] }

/-- The input of the test case "handles multiple bundles". -/
def sampleBundles : List Bundle :=
  [ { Name := "bundle1", UseValidAccNum := false, UseValidOrgId := false,
      UseIsInternal := false, Skus := ["sku1", "sku2"], PaidSkus := ["sku1"] },
    { Name := "bundle2", UseValidAccNum := false, UseValidOrgId := false,
      UseIsInternal := false, Skus := ["sku3", "sku4"], PaidSkus := ["sku4"] } ]

/-- An envelope of the shape the program accepts. -/
def sampleTemplate : Template Unit :=
  { Kind := "Template", ApiVersion := "v1",
    Objects :=
      [ { ApiVersion := "v1", Kind := "ConfigMap", Metadata := (),
          Data := some [("other.yml", "x"), ("bundles.yml", "old")] } ] }

/-- Collaborators that always succeed: every file parses to `sampleTemplate`
and every bundle text decodes to `sampleBundles`. -/
def sampleExternals : Externals Unit :=
  { readFile := fun _ => .ok "doc"
    unmarshalTemplate := fun _ _ => (sampleTemplate, none)
    unmarshalBundles := fun _ => .ok sampleBundles
    marshalBundles := fun _ => .ok "new"
    marshalTemplate := fun _ => .ok "out"
    writeFile := fun _ _ => none }

/-! ## Lemmas on Go maps -/

theorem GoMap.lookup_assign {V : Type} (m : GoMap V) (k k' : String) (v : V) :
    GoMap.lookup (GoMap.assign m k v) k' = if k = k' then some v else GoMap.lookup m k' := by
  induction m with
  | nil => simp [GoMap.assign, GoMap.lookup]
  | cons e rest ih =>
    obtain ⟨k0, v0⟩ := e
    by_cases h0 : k0 = k
    · subst h0
      by_cases h1 : k0 = k' <;> simp [GoMap.assign, GoMap.lookup, h1]
    · by_cases h1 : k0 = k'
      · subst h1
        have : ¬ k = k0 := fun h => h0 h.symm
        simp [GoMap.assign, GoMap.lookup, h0, this]
      · simp [GoMap.assign, GoMap.lookup, h0, h1, ih]

theorem GoMap.keys_assign_of_lookup {V : Type} (m : GoMap V) (k : String) (v w : V)
    (h : GoMap.lookup m k = some w) : GoMap.keys (GoMap.assign m k v) = GoMap.keys m := by
  induction m with
  | nil => simp [GoMap.lookup] at h
  | cons e rest ih =>
    obtain ⟨k0, v0⟩ := e
    by_cases h0 : k0 = k
    · subst h0
      simp [GoMap.assign, GoMap.keys]
    · simp only [GoMap.lookup, h0, if_false] at h
      have := ih h
      simp only [GoMap.keys] at this
      simp [GoMap.assign, GoMap.keys, h0, this]

/-! ## Lemmas on `removePaidSkusFromSkus` -/

theorem index_foldl_assign (paidSkus : List String) (m : GoMap Bool) (s : String) :
    GoMap.index false (paidSkus.foldl (fun m paidSku => GoMap.assign m paidSku true) m) s
      = (decide (s ∈ paidSkus) || GoMap.index false m s) := by
  induction paidSkus generalizing m with
  | nil => simp
  | cons p ps ih =>
    rw [List.foldl_cons, ih]
    by_cases hp : p = s
    · subst hp
      simp [GoMap.index, GoMap.lookup_assign]
    · have hp' : ¬ s = p := fun h => hp h.symm
      simp [GoMap.index, GoMap.lookup_assign, hp, hp']

theorem index_buildPaidSkusMap (paidSkus : List String) (s : String) :
    GoMap.index false (buildPaidSkusMap paidSkus) s = decide (s ∈ paidSkus) := by
  unfold buildPaidSkusMap
  rw [index_foldl_assign]
  simp [GoMap.index, GoMap.lookup]

theorem foldl_filter_append (m : GoMap Bool) (skus acc : List String) :
    skus.foldl
        (fun filteredSkus sku =>
          if !(GoMap.index false m sku) then filteredSkus ++ [sku] else filteredSkus)
        acc
      = acc ++ skus.filter (fun sku => !(GoMap.index false m sku)) := by
  induction skus generalizing acc with
  | nil => simp
  | cons x xs ih =>
    rw [List.foldl_cons, ih]
    by_cases hx : GoMap.index false m x = true
    · simp [hx]
    · simp [hx]

theorem filterSkus_eq_filter (m : GoMap Bool) (skus : List String) :
    filterSkus m skus = skus.filter (fun sku => !(GoMap.index false m sku)) := by
  unfold filterSkus
  rw [foldl_filter_append]
  simp

theorem loopBody_Skus (b : Bundle) :
    (loopBody b).Skus = b.Skus.filter (fun s => decide (s ∉ b.PaidSkus)) := by
  simp only [loopBody, filterSkus_eq_filter, index_buildPaidSkusMap]
  congr 1
  funext s
  simp

theorem take_succ_set {α : Type} (acc : List α) (k : Nat) (v : α) (h : k < acc.length) :
    (acc.set k v).take (k + 1) = acc.take k ++ [v] := by
  induction acc generalizing k with
  | nil => simp at h
  | cons a as ih =>
    cases k with
    | zero => simp
    | succ k =>
      have hk : k < as.length := by simpa using h
      simp [List.set, ih k hk]

theorem foldl_set_enumFrom (l : List Bundle) (k : Nat) (acc : List Bundle)
    (h : acc.length = k + l.length) :
    (l.enumFrom k).foldl (fun acc ib => acc.set ib.1 (loopBody ib.2)) acc
      = acc.take k ++ l.map loopBody := by
  induction l generalizing k acc with
  | nil =>
    have : acc.length ≤ k := by simp at h; omega
    simp [List.take_of_length_le this]
  | cons x xs ih =>
    have hk : k < acc.length := by simp at h; omega
    have hlen : (acc.set k (loopBody x)).length = (k + 1) + xs.length := by
      simp at h ⊢; omega
    simp only [List.enumFrom_cons, List.foldl_cons]
    rw [ih (k + 1) _ hlen, take_succ_set acc k _ hk]
    simp

theorem removePaidSkusFromSkus_eq_map (bs : List Bundle) :
    removePaidSkusFromSkus bs = bs.map loopBody := by
  unfold removePaidSkusFromSkus List.enum
  rw [foldl_set_enumFrom _ _ _ (by simp)]
  simp

theorem removePaidSkusFromSkus_getElem? (bs : List Bundle) (i : Nat) :
    (removePaidSkusFromSkus bs)[i]? = (bs[i]?).map loopBody := by
  rw [removePaidSkusFromSkus_eq_map]
  simp

theorem skus_at_index (bs : List Bundle) (i : Nat) (b : Bundle)
    (h : bs[i]? = some b) :
    ((removePaidSkusFromSkus bs)[i]?).map Bundle.Skus
      = some (b.Skus.filter (fun s => decide (s ∉ b.PaidSkus))) := by
  rw [removePaidSkusFromSkus_getElem?, h]
  simp [loopBody_Skus]

theorem read_success_shape {M : Type} (ext : Externals M) (filepath : String)
    (t₀ t : Template M) (bs : List Bundle)
    (h : readBundlesFromConfigMap ext filepath t₀ = (.ok bs, t)) :
    t.Kind = "Template" ∧
    ∃ cm rest d text, t.Objects = cm :: rest ∧ cm.Kind = "ConfigMap" ∧
      cm.Data = some d ∧ GoMap.lookup d "bundles.yml" = some text := by
  unfold readBundlesFromConfigMap at h
  split at h
  · simp at h
  · split at h
    · simp at h
    · rename_i parsed _
      simp only [Prod.mk.injEq] at h
      obtain ⟨hv, rfl⟩ := h
      unfold validateAndDecode at hv
      split at hv
      · simp at hv
      · rename_i hk
        split at hv
        · simp at hv
        · rename_i cm rest hobj
          split at hv
          · simp at hv
          · rename_i hck
            split at hv
            · simp at hv
            · rename_i text hl
              refine ⟨by simpa using hk, cm, rest, ?_⟩
              cases hd : cm.Data with
              | none => simp [hd, NilableMap.lookup] at hl
              | some d =>
                refine ⟨d, text, hobj, by simpa using hck, rfl, ?_⟩
                simpa [hd, NilableMap.lookup] using hl

theorem write_after_shape {M : Type} (ext : Externals M) (bundles : List Bundle)
    (outputFilepath : String) (t : Template M) (cm : ConfigMap M)
    (rest : List (ConfigMap M)) (d : GoMap String)
    (hobj : t.Objects = cm :: rest) (hd : cm.Data = some d) :
    ∃ res,
      (∃ err, ext.marshalBundles bundles = .error err ∧
        writeBundlesToConfigMap ext bundles outputFilepath t = .ok (res, t)) ∨
      ∃ text, ext.marshalBundles bundles = .ok text ∧
        writeBundlesToConfigMap ext bundles outputFilepath t =
          .ok (res, { t with
            Objects := { cm with Data := some (GoMap.assign d "bundles.yml" text) } :: rest }) := by
  unfold writeBundlesToConfigMap
  cases hm : ext.marshalBundles bundles with
  | error err => exact ⟨_, Or.inl ⟨err, rfl, rfl⟩⟩
  | ok text =>
    have hu : updateBundlesYml t text = .ok { t with
        Objects := { cm with Data := some (GoMap.assign d "bundles.yml" text) } :: rest } := by
      simp [updateBundlesYml, hobj, hd]
    simp only [hu]
    split
    · exact ⟨_, Or.inr ⟨text, rfl, rfl⟩⟩
    · split
      · exact ⟨_, Or.inr ⟨text, rfl, rfl⟩⟩
      · exact ⟨_, Or.inr ⟨text, rfl, rfl⟩⟩

/-! ## The transform: claims C1-C6 and C9 -/

/-- C1: for every bundle sequence `bs` and every index `i` holding a bundle `b`,
the `Skus` of `removePaidSkusFromSkus bs` at `i` is `b.Skus` filtered, in the
original order, to the entries that are not members of `b.PaidSkus`. -/
theorem removePaidSkusFromSkus_skus_filter (bs : List Bundle) (i : Nat) (b : Bundle)
    (h : bs[i]? = some b) :
    ((removePaidSkusFromSkus bs)[i]?).map Bundle.Skus
      = some (b.Skus.filter (fun s => decide (s ∉ b.PaidSkus))) :=
  skus_at_index bs i b h

theorem removePaidSkusFromSkus_skus_filter_witness :
    sampleBundles[0]? = some (sampleBundles.head (by decide)) ∧
    ((removePaidSkusFromSkus sampleBundles)[0]?).map Bundle.Skus
      = some (((sampleBundles.head (by decide)).Skus).filter
          (fun s => decide (s ∉ (sampleBundles.head (by decide)).PaidSkus))) :=
  ⟨rfl, removePaidSkusFromSkus_skus_filter sampleBundles 0 _ rfl⟩

/-- C2: every bundle of `removePaidSkusFromSkus bs` has disjoint `Skus` and
`PaidSkus`: no string occurs in both, however often it occurred in the input. -/
theorem removePaidSkusFromSkus_disjoint (bs : List Bundle) (b : Bundle)
    (hb : b ∈ removePaidSkusFromSkus bs) (s : String) (hs : s ∈ b.Skus) :
    s ∉ b.PaidSkus := by
  rw [removePaidSkusFromSkus_eq_map, List.mem_map] at hb
  obtain ⟨a, -, rfl⟩ := hb
  rw [loopBody_Skus, List.mem_filter] at hs
  simpa [loopBody] using hs.2

theorem removePaidSkusFromSkus_disjoint_witness :
    loopBody { sampleBundle with Skus := ["sku2", "sku1", "sku2"] }
        ∈ removePaidSkusFromSkus [{ sampleBundle with Skus := ["sku2", "sku1", "sku2"] }] ∧
    "sku1" ∈ (loopBody { sampleBundle with Skus := ["sku2", "sku1", "sku2"] }).Skus ∧
    "sku1" ∉ (loopBody { sampleBundle with Skus := ["sku2", "sku1", "sku2"] }).PaidSkus :=
  ⟨by decide, by decide,
    removePaidSkusFromSkus_disjoint [{ sampleBundle with Skus := ["sku2", "sku1", "sku2"] }]
      (loopBody { sampleBundle with Skus := ["sku2", "sku1", "sku2"] })
      (by decide) "sku1" (by decide)⟩

/-- C3: for every index `i` holding a bundle `b`, the output bundle at `i` has the
same `Name`, `UseValidAccNum`, `UseValidOrgId`, `UseIsInternal` and `PaidSkus` as
`b`; only `Skus` may differ. -/
theorem removePaidSkusFromSkus_frame (bs : List Bundle) (i : Nat) (b : Bundle)
    (h : bs[i]? = some b) :
    ∃ b', (removePaidSkusFromSkus bs)[i]? = some b' ∧
      b'.Name = b.Name ∧ b'.UseValidAccNum = b.UseValidAccNum ∧
      b'.UseValidOrgId = b.UseValidOrgId ∧ b'.UseIsInternal = b.UseIsInternal ∧
      b'.PaidSkus = b.PaidSkus ∧ b' = { b with Skus := b'.Skus } := by
  refine ⟨loopBody b, ?_, rfl, rfl, rfl, rfl, rfl, rfl⟩
  rw [removePaidSkusFromSkus_getElem?, h]
  rfl

theorem removePaidSkusFromSkus_frame_witness :
    [sampleBundle][0]? = some sampleBundle ∧
    ∃ b', (removePaidSkusFromSkus [sampleBundle])[0]? = some b' ∧
      b'.Name = sampleBundle.Name ∧ b'.UseValidAccNum = sampleBundle.UseValidAccNum ∧
      b'.UseValidOrgId = sampleBundle.UseValidOrgId ∧
      b'.UseIsInternal = sampleBundle.UseIsInternal ∧
      b'.PaidSkus = sampleBundle.PaidSkus ∧ b' = { sampleBundle with Skus := b'.Skus } :=
  ⟨rfl, removePaidSkusFromSkus_frame [sampleBundle] 0 sampleBundle rfl⟩

/-- C4: `removePaidSkusFromSkus` is a pointwise map: the output has as many
bundles as the input, the output bundle at `i` is the result of transforming the
one-element sequence holding the input bundle at `i`, and the function
distributes over concatenation. -/
theorem removePaidSkusFromSkus_pointwise (bs xs ys : List Bundle) :
    (removePaidSkusFromSkus bs).length = bs.length ∧
    (∀ (i : Nat) (b : Bundle), bs[i]? = some b →
      ∃ b', (removePaidSkusFromSkus bs)[i]? = some b' ∧ removePaidSkusFromSkus [b] = [b']) ∧
    removePaidSkusFromSkus (xs ++ ys)
      = removePaidSkusFromSkus xs ++ removePaidSkusFromSkus ys := by
  refine ⟨?_, ?_, ?_⟩
  · simp [removePaidSkusFromSkus_eq_map]
  · intro i b h
    refine ⟨loopBody b, ?_, ?_⟩
    · rw [removePaidSkusFromSkus_getElem?, h]
      rfl
    · simp [removePaidSkusFromSkus_eq_map]
  · simp [removePaidSkusFromSkus_eq_map]

theorem removePaidSkusFromSkus_pointwise_witness :
    sampleBundles[1]? = some (sampleBundles.getLast (by decide)) ∧
    ∃ b', (removePaidSkusFromSkus sampleBundles)[1]? = some b' ∧
      removePaidSkusFromSkus [sampleBundles.getLast (by decide)] = [b'] :=
  ⟨rfl, (removePaidSkusFromSkus_pointwise sampleBundles [] []).2.1 1 _ rfl⟩

/-- C5: `removePaidSkusFromSkus` is idempotent. -/
theorem removePaidSkusFromSkus_idempotent (bs : List Bundle) :
    removePaidSkusFromSkus (removePaidSkusFromSkus bs) = removePaidSkusFromSkus bs := by
  simp only [removePaidSkusFromSkus_eq_map, List.map_map]
  apply List.map_congr_left
  intro b _
  have hs : (loopBody (loopBody b)).Skus = (loopBody b).Skus := by
    rw [loopBody_Skus (loopBody b), loopBody_Skus b]
    simp [loopBody, List.filter_filter]
  have : loopBody (loopBody b) = { loopBody b with Skus := (loopBody (loopBody b)).Skus } := rfl
  rw [Function.comp_apply, this, hs]

/-- C6: for every index `i` holding a bundle `b`, the `Skus` of the output bundle
at `i` is an order-preserving sublist of `b.Skus`, so it is no longer than
`b.Skus`. -/
theorem removePaidSkusFromSkus_sublist (bs : List Bundle) (i : Nat) (b : Bundle)
    (h : bs[i]? = some b) :
    ∃ b', (removePaidSkusFromSkus bs)[i]? = some b' ∧
      List.Sublist b'.Skus b.Skus ∧ b'.Skus.length ≤ b.Skus.length := by
  refine ⟨loopBody b, ?_, ?_, ?_⟩
  · rw [removePaidSkusFromSkus_getElem?, h]
    rfl
  · rw [loopBody_Skus]
    exact List.filter_sublist _
  · rw [loopBody_Skus]
    exact List.length_filter_le _ _

theorem removePaidSkusFromSkus_sublist_witness :
    [sampleBundle][0]? = some sampleBundle ∧
    ∃ b', (removePaidSkusFromSkus [sampleBundle])[0]? = some b' ∧
      List.Sublist b'.Skus sampleBundle.Skus ∧ b'.Skus.length ≤ sampleBundle.Skus.length :=
  ⟨rfl, removePaidSkusFromSkus_sublist [sampleBundle] 0 sampleBundle rfl⟩

/-- C9: the filtered `Skus` depends on `PaidSkus` only as a set: two bundles with
equal `Skus` whose `PaidSkus` have the same elements get equal output `Skus`,
wherever they stand in their sequences. -/
theorem removePaidSkusFromSkus_paid_as_set (bs₁ bs₂ : List Bundle) (i j : Nat)
    (b₁ b₂ : Bundle) (h₁ : bs₁[i]? = some b₁) (h₂ : bs₂[j]? = some b₂)
    (hskus : b₁.Skus = b₂.Skus) (hpaid : ∀ s, s ∈ b₁.PaidSkus ↔ s ∈ b₂.PaidSkus) :
    ((removePaidSkusFromSkus bs₁)[i]?).map Bundle.Skus
      = ((removePaidSkusFromSkus bs₂)[j]?).map Bundle.Skus := by
  rw [skus_at_index bs₁ i b₁ h₁,
    skus_at_index bs₂ j b₂ h₂, hskus]
  congr 2
  funext s
  simp [hpaid s]

theorem removePaidSkusFromSkus_paid_as_set_witness :
    ((removePaidSkusFromSkus [sampleBundle])[0]?).map Bundle.Skus
      = ((removePaidSkusFromSkus
          [Bundle.zero, { sampleBundle with PaidSkus := ["sku2", "sku2"] }])[1]?).map Bundle.Skus :=
  removePaidSkusFromSkus_paid_as_set [sampleBundle]
    [Bundle.zero, { sampleBundle with PaidSkus := ["sku2", "sku2"] }] 0 1
    sampleBundle { sampleBundle with PaidSkus := ["sku2", "sku2"] } rfl rfl rfl
    (by intro s; simp [sampleBundle])

/-! ## The envelope: claims C7, C8 and C10 -/

/-- C7: when the file was read and parsed into the envelope `t`,
`readBundlesFromConfigMap` returns one of its validation errors exactly when
`t.Kind` is not "Template", or `t.Objects` is empty, or the first object's `Kind`
is not "ConfigMap", or the first object's `Data` has no "bundles.yml" key;
otherwise its result is the outcome of decoding the text under "bundles.yml" of
the first object. -/
theorem readBundlesFromConfigMap_validation {M : Type} (ext : Externals M)
    (filepath data : String) (t₀ t : Template M)
    (hread : ext.readFile filepath = .ok data)
    (hparse : ext.unmarshalTemplate data t₀ = (t, none)) :
    ((∃ e, (readBundlesFromConfigMap ext filepath t₀).1 = .error e ∧ e.isValidation = true) ↔
      (t.Kind ≠ "Template" ∨ t.Objects = [] ∨
        ∃ cm, t.Objects.head? = some cm ∧
          (cm.Kind ≠ "ConfigMap" ∨ NilableMap.lookup cm.Data "bundles.yml" = none))) ∧
    (¬ (t.Kind ≠ "Template" ∨ t.Objects = [] ∨
        ∃ cm, t.Objects.head? = some cm ∧
          (cm.Kind ≠ "ConfigMap" ∨ NilableMap.lookup cm.Data "bundles.yml" = none)) →
      ∃ cm text, t.Objects.head? = some cm ∧
        NilableMap.lookup cm.Data "bundles.yml" = some text ∧
        (readBundlesFromConfigMap ext filepath t₀).1 =
          (match ext.unmarshalBundles text with
            | .error err => .error (.parseBundles err)
            | .ok bundles => .ok bundles)) := by
  have hr : (readBundlesFromConfigMap ext filepath t₀).1 = validateAndDecode ext t := by
    simp [readBundlesFromConfigMap, hread, hparse]
  rw [hr]
  unfold validateAndDecode
  by_cases hk : t.Kind = "Template"
  · cases hobj : t.Objects with
    | nil => simp [hk, ReadError.isValidation]
    | cons cm rest =>
      by_cases hck : cm.Kind = "ConfigMap"
      · cases hl : NilableMap.lookup cm.Data "bundles.yml" with
        | none => simp [hk, hck, hl, ReadError.isValidation]
        | some text =>
          cases hu : ext.unmarshalBundles text with
          | error err => simp [hk, hck, hl, hu, ReadError.isValidation]
          | ok bundles => simp [hk, hck, hl, hu]
      · simp [hk, hck, ReadError.isValidation]
  · simp [hk, ReadError.isValidation]

theorem readBundlesFromConfigMap_validation_witness :
    sampleExternals.readFile "in.yml" = .ok "doc" ∧
    sampleExternals.unmarshalTemplate "doc" Template.zero = (sampleTemplate, none) ∧
    ¬ (∃ e, (readBundlesFromConfigMap sampleExternals "in.yml" Template.zero).1 = .error e ∧
        e.isValidation = true) :=
  ⟨rfl, rfl, fun h =>
    absurd ((readBundlesFromConfigMap_validation sampleExternals "in.yml" "doc"
      Template.zero sampleTemplate rfl rfl).1.mp h) (by simp [sampleTemplate, NilableMap.lookup, GoMap.lookup])⟩

/-- C8: on the envelope a successful `readBundlesFromConfigMap` left behind,
`writeBundlesToConfigMap` does not panic and changes at most the value stored
under "bundles.yml" in the first object's `Data`: the key list of that map, its
other entries, the first object's `ApiVersion`, `Kind` and `Metadata`, the other
objects, and the envelope's `Kind` and `ApiVersion` are as before; when the
bundles were encoded, the entry holds the new text. -/
theorem writeBundlesToConfigMap_frame {M : Type} (ext : Externals M)
    (filepath outputFilepath : String) (t₀ t : Template M) (read bundles : List Bundle)
    (hread : readBundlesFromConfigMap ext filepath t₀ = (.ok read, t)) :
    ∃ res t', writeBundlesToConfigMap ext bundles outputFilepath t = .ok (res, t') ∧
      t'.Kind = t.Kind ∧ t'.ApiVersion = t.ApiVersion ∧
      ∃ cm cm' rest d d', t.Objects = cm :: rest ∧ t'.Objects = cm' :: rest ∧
        cm'.ApiVersion = cm.ApiVersion ∧ cm'.Kind = cm.Kind ∧ cm'.Metadata = cm.Metadata ∧
        cm.Data = some d ∧ cm'.Data = some d' ∧
        GoMap.keys d' = GoMap.keys d ∧
        (∀ k, k ≠ "bundles.yml" → GoMap.lookup d' k = GoMap.lookup d k) ∧
        (∀ text, ext.marshalBundles bundles = .ok text →
          GoMap.lookup d' "bundles.yml" = some text) := by
  obtain ⟨-, cm, rest, d, old, hobj, -, hd, hl⟩ := read_success_shape ext filepath t₀ t read hread
  obtain ⟨res, ⟨err, hm, hw⟩ | ⟨text, hm, hw⟩⟩ :=
    write_after_shape ext bundles outputFilepath t cm rest d hobj hd
  · refine ⟨res, t, hw, rfl, rfl, cm, cm, rest, d, d, hobj, hobj, rfl, rfl, rfl, hd, hd, rfl,
      fun _ _ => rfl, ?_⟩
    intro text hm'
    rw [hm] at hm'
    cases hm'
  · refine ⟨res, _, hw, rfl, rfl, cm, _, rest, d, _, hobj, rfl, rfl, rfl, rfl, hd, rfl,
      GoMap.keys_assign_of_lookup d _ text old hl, ?_, ?_⟩
    · intro k hk
      rw [GoMap.lookup_assign]
      simp [Ne.symm hk]
    · intro text' hm'
      rw [hm] at hm'
      cases hm'
      rw [GoMap.lookup_assign]
      simp

theorem writeBundlesToConfigMap_frame_witness :
    readBundlesFromConfigMap sampleExternals "in.yml" Template.zero
      = (.ok sampleBundles, sampleTemplate) ∧
    ∃ res t', writeBundlesToConfigMap sampleExternals (removePaidSkusFromSkus sampleBundles)
        "in.yml.new" sampleTemplate = .ok (res, t') ∧
      t'.Kind = sampleTemplate.Kind ∧ t'.ApiVersion = sampleTemplate.ApiVersion ∧
      ∃ cm cm' rest d d', sampleTemplate.Objects = cm :: rest ∧ t'.Objects = cm' :: rest ∧
        cm'.ApiVersion = cm.ApiVersion ∧ cm'.Kind = cm.Kind ∧ cm'.Metadata = cm.Metadata ∧
        cm.Data = some d ∧ cm'.Data = some d' ∧
        GoMap.keys d' = GoMap.keys d ∧
        (∀ k, k ≠ "bundles.yml" → GoMap.lookup d' k = GoMap.lookup d k) ∧
        (∀ text, sampleExternals.marshalBundles (removePaidSkusFromSkus sampleBundles) = .ok text →
          GoMap.lookup d' "bundles.yml" = some text) :=
  ⟨rfl, writeBundlesToConfigMap_frame sampleExternals "in.yml" "in.yml.new" Template.zero
    sampleTemplate sampleBundles (removePaidSkusFromSkus sampleBundles) rfl⟩

/-- C10: after a successful `readBundlesFromConfigMap` the envelope left in
`originalTemplate` has a non-empty `Objects` and a non-nil `Data` on its first
object, so the update in `writeBundlesToConfigMap` cannot panic; on the
zero-valued envelope the index `Objects[0]` is out of range. -/
theorem writeBundlesToConfigMap_safe_after_read {M : Type} (ext : Externals M)
    (filepath : String) (t₀ t : Template M) (read : List Bundle)
    (hread : readBundlesFromConfigMap ext filepath t₀ = (.ok read, t)) :
    (t.Objects ≠ [] ∧ ∃ cm d, t.Objects.head? = some cm ∧ cm.Data = some d) ∧
    (∀ text, ∃ t', updateBundlesYml t text = .ok t') ∧
    (∀ bundles outputFilepath, ∃ r,
      writeBundlesToConfigMap ext bundles outputFilepath t = .ok r) ∧
    (∀ text, updateBundlesYml (Template.zero : Template M) text = .error .indexOutOfRange) ∧
    (∀ bundles outputFilepath text, ext.marshalBundles bundles = .ok text →
      writeBundlesToConfigMap ext bundles outputFilepath Template.zero
        = .error .indexOutOfRange) := by
  obtain ⟨-, cm, rest, d, old, hobj, -, hd, -⟩ := read_success_shape ext filepath t₀ t read hread
  refine ⟨⟨by simp [hobj], cm, d, by simp [hobj], hd⟩, ?_, ?_, ?_, ?_⟩
  · intro text
    simp [updateBundlesYml, hobj, hd]
  · intro bundles outputFilepath
    obtain ⟨res, ⟨err, -, hw⟩ | ⟨text, -, hw⟩⟩ :=
      write_after_shape ext bundles outputFilepath t cm rest d hobj hd
    · exact ⟨_, hw⟩
    · exact ⟨_, hw⟩
  · intro text
    rfl
  · intro bundles outputFilepath text hm
    simp [writeBundlesToConfigMap, hm, updateBundlesYml, Template.zero]

theorem writeBundlesToConfigMap_safe_after_read_witness :
    readBundlesFromConfigMap sampleExternals "in.yml" Template.zero
      = (.ok sampleBundles, sampleTemplate) ∧
    (∀ bundles outputFilepath, ∃ r,
      writeBundlesToConfigMap sampleExternals bundles outputFilepath sampleTemplate = .ok r) ∧
    (∀ bundles outputFilepath text, sampleExternals.marshalBundles bundles = .ok text →
      writeBundlesToConfigMap sampleExternals bundles outputFilepath Template.zero
        = .error .indexOutOfRange) :=
  ⟨rfl,
    (writeBundlesToConfigMap_safe_after_read sampleExternals "in.yml" Template.zero
      sampleTemplate sampleBundles rfl).2.2.1,
    (writeBundlesToConfigMap_safe_after_read sampleExternals "in.yml" Template.zero
      sampleTemplate sampleBundles rfl).2.2.2.2⟩

end PaidBundles
